import Mathlib

/-!
Verification of the pose-similarity scorer and the avatar renderers of the
monkey-moves repository.

The embedding follows the TypeScript sources:
* `src/utils/poseComparison.ts` — `calculatePoseSimilarity`,
  `calculateJointSimilarity`, `getFeedbackMessage`, `shouldCelebrate`;
* `src/components/AvatarRenderer.tsx` — canvas renderer with per-style head
  drawing, modelled as a function producing a trace of drawing operations;
* `src/components/ReferenceAvatarRenderer.tsx` — the low-fidelity reference
  renderer, modelled the same way.

Modelling conventions:
* JavaScript numbers are modelled as exact rationals (`ℚ`) for all data that
  the program compares or stores, and as real numbers (`ℝ`) where the code
  computes `Math.sqrt` and divisions, so that the metric is exact.
* `a || b` on a possibly-absent number is modelled by `jsOrOpt`/`jsOrQ`:
  JavaScript treats both `undefined` and `0` as falsy, so `0 || b = b`.
* `Math.round` is `jsRound`: round half toward positive infinity.
* Canvas drawing is modelled as a list of primitive operations (`DrawOp`);
  arc and ellipse angles are stored as the rational coefficient of π that
  appears in the source (`0.2 * Math.PI` is stored as `0.2`), and rotations
  likewise (`side * Math.PI / 6` is stored as `side / 6`).
-/

/-- A MediaPipe pose landmark (interface `PoseLandmark` of `poseDetection.ts`):
normalized `x`, `y`, depth `z`, and an optional visibility. -/
structure PoseLandmark where
  x : ℚ
  y : ℚ
  z : ℚ
  visibility : Option ℚ
  deriving DecidableEq, Repr

/-- JavaScript `v || d` for an optional number `v`: `undefined` and `0` are
falsy, every other number is truthy. -/
def jsOrOpt (v : Option ℚ) (d : ℚ) : ℚ :=
  match v with
  | none => d
  | some x => if x = 0 then d else x

/-- JavaScript `x || d` for a present number `x`: `0` is falsy. -/
def jsOrQ (x d : ℚ) : ℚ :=
  if x = 0 then d else x

/-- JavaScript `Math.round`: nearest integer, ties toward `+∞`. -/
noncomputable def jsRound (x : ℝ) : ℤ := ⌊x + 1/2⌋

/-- A detected pose (interface `DetectedPose` of `poseDetection.ts`): the body
landmark array plus the world-space variant.  The optional per-side hand
landmark sets are not read by the scorer and are modelled only on the
renderer side. -/
structure DetectedPose where
  landmarks : Option (List PoseLandmark)
  worldLandmarks : List PoseLandmark
  deriving DecidableEq, Repr

/-- `KEY_LANDMARKS` of `poseComparison.ts`: shoulders, elbows, wrists, hips,
knees, ankles. -/
def KEY_LANDMARKS : List ℕ := [11, 12, 13, 14, 15, 16, 23, 24, 25, 26, 27, 28]

/-- `calculateJointSimilarity` of `poseComparison.ts`:
Euclidean distance in normalized space with the z contribution weighted by
0.3, mapped to `max(0, 1 - distance / 0.3)`. -/
noncomputable def calculateJointSimilarity (l1 l2 : PoseLandmark) : ℝ :=
  let dx := l1.x - l2.x
  let dy := l1.y - l2.y
  let dz := jsOrQ l1.z 0 - jsOrQ l2.z 0
  let distance := Real.sqrt ((dx * dx + dy * dy + dz * dz * 0.3 : ℚ) : ℝ)
  max 0 (1 - distance / 0.3)

/-- One iteration of the `for (const idx of KEY_LANDMARKS)` loop of
`calculatePoseSimilarity`, accumulating `(totalSimilarity, validComparisons)`.
The bounds test `idx >= landmarks.length` is the `none` case of `List.get?`. -/
noncomputable def scorerStep (landmarks1 landmarks2 : List PoseLandmark)
    (acc : ℝ × ℕ) (idx : ℕ) : ℝ × ℕ :=
  match landmarks1.get? idx, landmarks2.get? idx with
  | some l1, some l2 =>
    -- if ((l1.visibility || 1) < 0.5 || (l2.visibility || 1) < 0.5) continue;
    if jsOrOpt l1.visibility 1 < mkRat 1 2 ∨ jsOrOpt l2.visibility 1 < mkRat 1 2 then acc
    else (acc.1 + calculateJointSimilarity l1 l2, acc.2 + 1)
  | _, _ => acc

/-- `calculatePoseSimilarity` of `poseComparison.ts`. -/
noncomputable def calculatePoseSimilarity
    (pose1 pose2 : Option DetectedPose) : ℤ :=
  match pose1, pose2 with
  | some p1, some p2 =>
    match p1.landmarks, p2.landmarks with
    | some landmarks1, some landmarks2 =>
      let r := KEY_LANDMARKS.foldl (scorerStep landmarks1 landmarks2) (0, 0)
      if r.2 = 0 then 0
      else jsRound (r.1 / (r.2 : ℝ) * 100)
    | _, _ => 0
  | _, _ => 0

/-- `getFeedbackMessage` of `poseComparison.ts`: `(message, color)` pair. -/
def getFeedbackMessage (accuracy : ℚ) : String × String :=
  if accuracy ≥ 90 then ("Perfect! 🎯", "text-green-500")
  else if accuracy ≥ 75 then ("Great! 🌟", "text-blue-500")
  else if accuracy ≥ 60 then ("Good! 👍", "text-yellow-500")
  else if accuracy ≥ 40 then ("Keep trying! 💪", "text-orange-500")
  else ("Try again! 🎯", "text-red-500")

/-- `shouldCelebrate` of `poseComparison.ts`. -/
def shouldCelebrate (accuracy : ℚ) : Bool :=
  accuracy ≥ 85

/-- A joint index contributes to the comparison: present in both landmark
arrays and the visibility guard of the loop passes on both sides. -/
def eligibleJoint (landmarks1 landmarks2 : List PoseLandmark) (idx : ℕ) : Bool :=
  match landmarks1.get? idx, landmarks2.get? idx with
  | some l1, some l2 =>
    if jsOrOpt l1.visibility 1 < mkRat 1 2 ∨ jsOrOpt l2.visibility 1 < mkRat 1 2 then false
    else true
  | _, _ => false

/-- The similarity contributed by a joint index (0 when the index is not
present on both sides; only used below for indices that are). -/
noncomputable def simAt (landmarks1 landmarks2 : List PoseLandmark) (idx : ℕ) : ℝ :=
  match landmarks1.get? idx, landmarks2.get? idx with
  | some l1, some l2 => calculateJointSimilarity l1 l2
  | _, _ => 0

lemma jsOrQ_zero (z : ℚ) : jsOrQ z 0 = z := by
  unfold jsOrQ
  by_cases h : z = 0 <;> simp [h]

lemma scorerStep_eq (landmarks1 landmarks2 : List PoseLandmark)
    (acc : ℝ × ℕ) (idx : ℕ) :
    scorerStep landmarks1 landmarks2 acc idx =
      if eligibleJoint landmarks1 landmarks2 idx then
        (acc.1 + simAt landmarks1 landmarks2 idx, acc.2 + 1)
      else acc := by
  unfold scorerStep eligibleJoint simAt
  rcases h1 : landmarks1.get? idx with _ | l1 <;>
    rcases h2 : landmarks2.get? idx with _ | l2
  · simp [h1, h2]
  · simp [h1, h2]
  · simp [h1, h2]
  · simp only [h1, h2]
    by_cases hvis : jsOrOpt l1.visibility 1 < mkRat 1 2 ∨ jsOrOpt l2.visibility 1 < mkRat 1 2
    · rw [if_pos hvis, if_pos hvis]
      simp
    · rw [if_neg hvis, if_neg hvis]
      simp

lemma foldl_scorerStep (landmarks1 landmarks2 : List PoseLandmark) :
    ∀ (l : List ℕ) (acc : ℝ × ℕ),
      l.foldl (scorerStep landmarks1 landmarks2) acc =
        (acc.1 + ((l.filter (eligibleJoint landmarks1 landmarks2)).map
            (simAt landmarks1 landmarks2)).sum,
         acc.2 + (l.filter (eligibleJoint landmarks1 landmarks2)).length) := by
  intro l
  induction l with
  | nil => intro acc; simp
  | cons a t ih =>
    intro acc
    rw [List.foldl_cons, ih, scorerStep_eq]
    by_cases h : eligibleJoint landmarks1 landmarks2 a
    · simp [List.filter_cons, h, add_assoc, add_comm, add_left_comm]
    · simp [List.filter_cons, h]

/-- Structural form of the score on poses whose landmark arrays are present:
average of the per-joint similarities over the eligible key joints. -/
lemma calculatePoseSimilarity_eq (landmarks1 landmarks2 w1 w2 : List PoseLandmark) :
    calculatePoseSimilarity (some ⟨some landmarks1, w1⟩) (some ⟨some landmarks2, w2⟩) =
      (if (KEY_LANDMARKS.filter (eligibleJoint landmarks1 landmarks2)).length = 0 then 0
       else jsRound
        (((KEY_LANDMARKS.filter (eligibleJoint landmarks1 landmarks2)).map
            (simAt landmarks1 landmarks2)).sum /
          ((KEY_LANDMARKS.filter (eligibleJoint landmarks1 landmarks2)).length : ℝ) * 100)) := by
  unfold calculatePoseSimilarity
  dsimp only
  rw [foldl_scorerStep]
  simp

lemma calculateJointSimilarity_nonneg (a b : PoseLandmark) :
    0 ≤ calculateJointSimilarity a b :=
  le_max_left _ _

lemma calculateJointSimilarity_le_one (a b : PoseLandmark) :
    calculateJointSimilarity a b ≤ 1 := by
  unfold calculateJointSimilarity
  refine max_le zero_le_one ?_
  refine sub_le_self _ ?_
  exact div_nonneg (Real.sqrt_nonneg _) (by norm_num)

lemma simAt_nonneg (landmarks1 landmarks2 : List PoseLandmark) (idx : ℕ) :
    0 ≤ simAt landmarks1 landmarks2 idx := by
  unfold simAt
  rcases landmarks1.get? idx with _ | l1 <;> rcases landmarks2.get? idx with _ | l2 <;>
    first
      | exact le_rfl
      | exact calculateJointSimilarity_nonneg _ _

lemma simAt_le_one (landmarks1 landmarks2 : List PoseLandmark) (idx : ℕ) :
    simAt landmarks1 landmarks2 idx ≤ 1 := by
  unfold simAt
  rcases landmarks1.get? idx with _ | l1 <;> rcases landmarks2.get? idx with _ | l2 <;>
    first
      | exact zero_le_one
      | exact calculateJointSimilarity_le_one _ _

lemma sum_simAt_nonneg (landmarks1 landmarks2 : List PoseLandmark) (l : List ℕ) :
    0 ≤ ((l.map (simAt landmarks1 landmarks2)).sum : ℝ) := by
  refine List.sum_nonneg ?_
  intro x hx
  rcases List.mem_map.mp hx with ⟨idx, _, rfl⟩
  exact simAt_nonneg _ _ _

lemma sum_simAt_le_length (landmarks1 landmarks2 : List PoseLandmark) (l : List ℕ) :
    ((l.map (simAt landmarks1 landmarks2)).sum : ℝ) ≤ l.length := by
  induction l with
  | nil => simp
  | cons a t ih =>
    simp only [List.map_cons, List.sum_cons, List.length_cons]
    push_cast
    have := simAt_le_one landmarks1 landmarks2 a
    linarith

lemma jsRound_bounds {x : ℝ} (h0 : 0 ≤ x) (h1 : x ≤ 100) :
    0 ≤ jsRound x ∧ jsRound x ≤ 100 := by
  unfold jsRound
  constructor
  · refine Int.le_floor.mpr ?_
    push_cast
    linarith
  · have : ⌊x + 1/2⌋ < 101 := by
      refine Int.floor_lt.mpr ?_
      push_cast
      linarith
    omega

/-- C4 core: whatever the two inputs, the score is an integer in [0, 100]. -/
lemma score_bounds (pose1 pose2 : Option DetectedPose) :
    0 ≤ calculatePoseSimilarity pose1 pose2 ∧ calculatePoseSimilarity pose1 pose2 ≤ 100 := by
  rcases pose1 with _ | ⟨lm1, w1⟩
  · simp [calculatePoseSimilarity]
  rcases pose2 with _ | ⟨lm2, w2⟩
  · simp [calculatePoseSimilarity]
  rcases lm1 with _ | landmarks1
  · simp [calculatePoseSimilarity]
  rcases lm2 with _ | landmarks2
  · simp [calculatePoseSimilarity]
  rw [calculatePoseSimilarity_eq]
  by_cases hlen : (KEY_LANDMARKS.filter (eligibleJoint landmarks1 landmarks2)).length = 0
  · simp [hlen]
  · rw [if_neg hlen]
    have hpos : (0 : ℝ) < ((KEY_LANDMARKS.filter (eligibleJoint landmarks1 landmarks2)).length : ℝ) := by
      have := Nat.pos_of_ne_zero hlen
      exact_mod_cast this
    set l := KEY_LANDMARKS.filter (eligibleJoint landmarks1 landmarks2) with hl
    have hs0 : 0 ≤ ((l.map (simAt landmarks1 landmarks2)).sum : ℝ) :=
      sum_simAt_nonneg _ _ _
    have hs1 : ((l.map (simAt landmarks1 landmarks2)).sum : ℝ) ≤ l.length :=
      sum_simAt_le_length _ _ _
    refine jsRound_bounds ?_ ?_
    · positivity
    · have hdiv : (l.map (simAt landmarks1 landmarks2)).sum / (l.length : ℝ) ≤ 1 :=
        (div_le_one hpos).mpr hs1
      nlinarith

lemma calculateJointSimilarity_comm (a b : PoseLandmark) :
    calculateJointSimilarity a b = calculateJointSimilarity b a := by
  unfold calculateJointSimilarity
  dsimp only
  have h : ((a.x - b.x) * (a.x - b.x) + (a.y - b.y) * (a.y - b.y) +
        (jsOrQ a.z 0 - jsOrQ b.z 0) * (jsOrQ a.z 0 - jsOrQ b.z 0) * 0.3 : ℚ) =
      ((b.x - a.x) * (b.x - a.x) + (b.y - a.y) * (b.y - a.y) +
        (jsOrQ b.z 0 - jsOrQ a.z 0) * (jsOrQ b.z 0 - jsOrQ a.z 0) * 0.3 : ℚ) := by
    ring
  rw [h]

lemma eligibleJoint_comm (landmarks1 landmarks2 : List PoseLandmark) (idx : ℕ) :
    eligibleJoint landmarks1 landmarks2 idx = eligibleJoint landmarks2 landmarks1 idx := by
  unfold eligibleJoint
  rcases h1 : landmarks1.get? idx with _ | l1 <;>
    rcases h2 : landmarks2.get? idx with _ | l2 <;>
    simp only [h1, h2]
  by_cases hvis : jsOrOpt l1.visibility 1 < mkRat 1 2 ∨ jsOrOpt l2.visibility 1 < mkRat 1 2
  · rw [if_pos hvis, if_pos hvis.symm]
  · rw [if_neg hvis, if_neg (fun hc => hvis hc.symm)]

lemma simAt_comm (landmarks1 landmarks2 : List PoseLandmark) (idx : ℕ) :
    simAt landmarks1 landmarks2 idx = simAt landmarks2 landmarks1 idx := by
  unfold simAt
  rcases h1 : landmarks1.get? idx with _ | l1 <;>
    rcases h2 : landmarks2.get? idx with _ | l2 <;>
    simp only [h1, h2]
  exact calculateJointSimilarity_comm _ _

/-- C9 core: the score is symmetric in its two pose arguments. -/
lemma score_comm (pose1 pose2 : Option DetectedPose) :
    calculatePoseSimilarity pose1 pose2 = calculatePoseSimilarity pose2 pose1 := by
  rcases pose1 with _ | ⟨lm1, w1⟩ <;> rcases pose2 with _ | ⟨lm2, w2⟩
  · rfl
  · rcases lm2 with _ | landmarks2 <;> simp [calculatePoseSimilarity]
  · rcases lm1 with _ | landmarks1 <;> simp [calculatePoseSimilarity]
  rcases lm1 with _ | landmarks1
  · rcases lm2 with _ | landmarks2 <;> simp [calculatePoseSimilarity]
  rcases lm2 with _ | landmarks2
  · simp [calculatePoseSimilarity]
  rw [calculatePoseSimilarity_eq, calculatePoseSimilarity_eq]
  have hfil : KEY_LANDMARKS.filter (eligibleJoint landmarks1 landmarks2) =
      KEY_LANDMARKS.filter (eligibleJoint landmarks2 landmarks1) :=
    List.filter_congr (fun idx _ => eligibleJoint_comm landmarks1 landmarks2 idx)
  have hmap : (KEY_LANDMARKS.filter (eligibleJoint landmarks2 landmarks1)).map
        (simAt landmarks1 landmarks2) =
      (KEY_LANDMARKS.filter (eligibleJoint landmarks2 landmarks1)).map
        (simAt landmarks2 landmarks1) :=
    List.map_congr_left (fun idx _ => simAt_comm landmarks1 landmarks2 idx)
  rw [hfil, hmap]

/-- The landmark at an index, defaulting to the origin landmark; only used to
state the C1 formula, at indices the hypotheses force to be present. -/
def lmD (landmarks : List PoseLandmark) (idx : ℕ) : PoseLandmark :=
  (landmarks.get? idx).getD ⟨0, 0, 0, none⟩

/-- The per-joint similarity exactly as the specification words it:
`max(0, 1 - d/0.3)` with `d = sqrt(dx^2 + dy^2 + 0.3*dz^2)`.  Stated from the
spec text, to be compared against `calculateJointSimilarity`. -/
noncomputable def specJointSimilarity (l1 l2 : PoseLandmark) : ℝ :=
  max 0 (1 - Real.sqrt (((l1.x : ℝ) - l2.x) ^ 2 + ((l1.y : ℝ) - l2.y) ^ 2 +
    0.3 * ((l1.z : ℝ) - l2.z) ^ 2) / 0.3)

lemma calculateJointSimilarity_eq_spec (a b : PoseLandmark) :
    calculateJointSimilarity a b = specJointSimilarity a b := by
  unfold calculateJointSimilarity specJointSimilarity
  dsimp only
  rw [jsOrQ_zero, jsOrQ_zero]
  have h : ((a.x - b.x) * (a.x - b.x) + (a.y - b.y) * (a.y - b.y) +
        (a.z - b.z) * (a.z - b.z) * 0.3 : ℚ) =
      (((a.x : ℝ) - b.x) ^ 2 + ((a.y : ℝ) - b.y) ^ 2 + 0.3 * ((a.z : ℝ) - b.z) ^ 2 : ℝ) := by
    push_cast
    ring
  rw [h]

/-- Decidable form of C1's hypothesis at one index: the landmark is present in
both arrays and carries an explicit visibility that is at least 0.5. -/
def keyOk (landmarks1 landmarks2 : List PoseLandmark) (idx : ℕ) : Bool :=
  match landmarks1.get? idx, landmarks2.get? idx with
  | some l1, some l2 =>
    match l1.visibility, l2.visibility with
    | some v1, some v2 => decide (mkRat 1 2 ≤ v1) && decide (mkRat 1 2 ≤ v2)
    | _, _ => false
  | _, _ => false

lemma jsOrOpt_of_ge_half {v : ℚ} (hv : mkRat 1 2 ≤ v) : jsOrOpt (some v) 1 = v := by
  show (if v = 0 then (1 : ℚ) else v) = v
  rw [if_neg]
  rintro rfl
  rw [Rat.mkRat_eq_div] at hv
  norm_num at hv

lemma keyOk_eligible {landmarks1 landmarks2 : List PoseLandmark} {idx : ℕ}
    (h : keyOk landmarks1 landmarks2 idx = true) :
    eligibleJoint landmarks1 landmarks2 idx = true := by
  unfold keyOk at h
  unfold eligibleJoint
  rcases h1 : landmarks1.get? idx with _ | l1 <;>
    rcases h2 : landmarks2.get? idx with _ | l2 <;>
    simp only [h1, h2] at h ⊢
  · exact h
  · exact h
  · exact h
  rcases hv1 : l1.visibility with _ | v1 <;> rcases hv2 : l2.visibility with _ | v2 <;>
    simp only [hv1, hv2] at h ⊢
  · exact absurd h (by simp)
  · exact absurd h (by simp)
  · exact absurd h (by simp)
  simp only [Bool.and_eq_true, decide_eq_true_eq] at h
  rw [jsOrOpt_of_ge_half h.1, jsOrOpt_of_ge_half h.2]
  have hnot : ¬(v1 < mkRat 1 2 ∨ v2 < mkRat 1 2) := by
    push_neg
    exact ⟨h.1, h.2⟩
  rw [if_neg hnot]

lemma keyOk_get {landmarks1 landmarks2 : List PoseLandmark} {idx : ℕ}
    (h : keyOk landmarks1 landmarks2 idx = true) :
    ∃ a b, landmarks1.get? idx = some a ∧ landmarks2.get? idx = some b := by
  unfold keyOk at h
  rcases h1 : landmarks1.get? idx with _ | l1 <;>
    rcases h2 : landmarks2.get? idx with _ | l2 <;>
    simp only [h1, h2] at h
  · exact absurd h (by simp)
  · exact absurd h (by simp)
  · exact absurd h (by simp)
  exact ⟨l1, l2, rfl, rfl⟩

/-- C1: for poses in which each of the 12 key indices is present on both
sides with an explicit visibility at least 0.5, `calculatePoseSimilarity`
returns `round(100 * (1/12) * Σ max(0, 1 - d/0.3))` with
`d = sqrt(dx^2 + dy^2 + 0.3 dz^2)` over the 12 key joints. -/
theorem c1_score_formula (landmarks1 landmarks2 w1 w2 : List PoseLandmark)
    (h : ∀ idx ∈ KEY_LANDMARKS, keyOk landmarks1 landmarks2 idx = true) :
    calculatePoseSimilarity (some ⟨some landmarks1, w1⟩) (some ⟨some landmarks2, w2⟩) =
      jsRound (100 * (1/12) *
        (KEY_LANDMARKS.map (fun idx =>
          specJointSimilarity (lmD landmarks1 idx) (lmD landmarks2 idx))).sum) := by
  rw [calculatePoseSimilarity_eq]
  have hfil : KEY_LANDMARKS.filter (eligibleJoint landmarks1 landmarks2) = KEY_LANDMARKS :=
    List.filter_eq_self.mpr (fun idx hidx => keyOk_eligible (h idx hidx))
  rw [hfil]
  have hmap : KEY_LANDMARKS.map (simAt landmarks1 landmarks2) =
      KEY_LANDMARKS.map (fun idx =>
        specJointSimilarity (lmD landmarks1 idx) (lmD landmarks2 idx)) := by
    refine List.map_congr_left ?_
    intro idx hidx
    obtain ⟨a, b, ha, hb⟩ := keyOk_get (h idx hidx)
    unfold simAt lmD
    simp only [ha, hb, Option.getD_some]
    exact calculateJointSimilarity_eq_spec a b
  rw [hmap]
  rw [if_neg (by simp [KEY_LANDMARKS])]
  congr 1
  have hlen : (KEY_LANDMARKS.length : ℝ) = 12 := by norm_num [KEY_LANDMARKS]
  rw [hlen]
  ring

/-- A simple frontal pose: every one of the 33 landmark slots holds the same
fully-visible landmark. -/
def c1WitnessLms : List PoseLandmark :=
  List.replicate 33 ⟨0, 0, 0, some 1⟩

/-- Witness for C1 at a concrete pair of poses. -/
theorem c1_score_formula_witness :
    (∀ idx ∈ KEY_LANDMARKS, keyOk c1WitnessLms c1WitnessLms idx = true) ∧
    calculatePoseSimilarity (some ⟨some c1WitnessLms, []⟩) (some ⟨some c1WitnessLms, []⟩) =
      jsRound (100 * (1/12) *
        (KEY_LANDMARKS.map (fun idx =>
          specJointSimilarity (lmD c1WitnessLms idx) (lmD c1WitnessLms idx))).sum) :=
  ⟨by decide, c1_score_formula _ _ _ _ (by decide)⟩

/-- C4: on all inputs — null poses, missing landmark arrays, short arrays,
arbitrary visibilities — the score is an integer in [0, 100]. -/
theorem c4_score_in_range (pose1 pose2 : Option DetectedPose) :
    0 ≤ calculatePoseSimilarity pose1 pose2 ∧ calculatePoseSimilarity pose1 pose2 ≤ 100 :=
  score_bounds pose1 pose2

/-- C5: the score is 0 whenever a pose is null, a landmark array is missing,
or no key index passes the presence and visibility checks on both sides. -/
theorem c5_score_zero_when_no_joint :
    (∀ pose : Option DetectedPose,
      calculatePoseSimilarity none pose = 0 ∧ calculatePoseSimilarity pose none = 0) ∧
    (∀ (w : List PoseLandmark) (pose : Option DetectedPose),
      calculatePoseSimilarity (some ⟨none, w⟩) pose = 0 ∧
      calculatePoseSimilarity pose (some ⟨none, w⟩) = 0) ∧
    (∀ landmarks1 landmarks2 w1 w2 : List PoseLandmark,
      (∀ idx ∈ KEY_LANDMARKS, eligibleJoint landmarks1 landmarks2 idx = false) →
      calculatePoseSimilarity (some ⟨some landmarks1, w1⟩) (some ⟨some landmarks2, w2⟩) = 0) := by
  refine ⟨?_, ?_, ?_⟩
  · intro pose
    constructor
    · rcases pose with _ | ⟨lm, w⟩
      · simp [calculatePoseSimilarity]
      · rcases lm with _ | landmarks <;> simp [calculatePoseSimilarity]
    · rcases pose with _ | ⟨lm, w⟩
      · simp [calculatePoseSimilarity]
      · rcases lm with _ | landmarks <;> simp [calculatePoseSimilarity]
  · intro w pose
    constructor
    · rcases pose with _ | ⟨lm, w'⟩
      · simp [calculatePoseSimilarity]
      · rcases lm with _ | landmarks <;> simp [calculatePoseSimilarity]
    · rcases pose with _ | ⟨lm, w'⟩
      · simp [calculatePoseSimilarity]
      · rcases lm with _ | landmarks <;> simp [calculatePoseSimilarity]
  · intro landmarks1 landmarks2 w1 w2 h
    rw [calculatePoseSimilarity_eq]
    have hfil : KEY_LANDMARKS.filter (eligibleJoint landmarks1 landmarks2) = [] := by
      refine List.filter_eq_nil_iff.mpr ?_
      intro idx hidx
      simp [h idx hidx]
    rw [hfil]
    simp

/-- A pose whose key joints all carry visibility 0.25, below the threshold. -/
def c5WitnessLms : List PoseLandmark :=
  List.replicate 33 ⟨0, 0, 0, some (mkRat 1 4)⟩

/-- Witness for C5: every joint ineligible, score 0. -/
theorem c5_score_zero_when_no_joint_witness :
    (∀ idx ∈ KEY_LANDMARKS, eligibleJoint c5WitnessLms c5WitnessLms idx = false) ∧
    calculatePoseSimilarity (some ⟨some c5WitnessLms, []⟩) (some ⟨some c5WitnessLms, []⟩) = 0 :=
  ⟨by decide, c5_score_zero_when_no_joint.2.2 _ _ _ _ (by decide)⟩

/-- C7: the feedback bands are lower-closed at 90/75/60/40 and exhaustive;
the concrete boundary scores map as the specification states. -/
theorem c7_feedback_bands :
    ∀ a : ℚ,
    (90 ≤ a → getFeedbackMessage a = ("Perfect! 🎯", "text-green-500")) ∧
    (75 ≤ a → a < 90 → getFeedbackMessage a = ("Great! 🌟", "text-blue-500")) ∧
    (60 ≤ a → a < 75 → getFeedbackMessage a = ("Good! 👍", "text-yellow-500")) ∧
    (40 ≤ a → a < 60 → getFeedbackMessage a = ("Keep trying! 💪", "text-orange-500")) ∧
    (a < 40 → getFeedbackMessage a = ("Try again! 🎯", "text-red-500")) ∧
    getFeedbackMessage 90 = ("Perfect! 🎯", "text-green-500") ∧
    getFeedbackMessage 89 = ("Great! 🌟", "text-blue-500") ∧
    getFeedbackMessage 60 = ("Good! 👍", "text-yellow-500") ∧
    getFeedbackMessage 39 = ("Try again! 🎯", "text-red-500") := by
  intro a
  refine ⟨?_, ?_, ?_, ?_, ?_, by decide, by decide, by decide, by decide⟩ <;>
    unfold getFeedbackMessage
  · intro h
    rw [if_pos h]
  · intro h h'
    rw [if_neg (by exact fun hc => absurd h' (not_lt.mpr hc)), if_pos h]
  · intro h h'
    rw [if_neg (by intro hc; exact absurd h' (not_lt.mpr (by linarith))),
      if_neg (by exact fun hc => absurd h' (not_lt.mpr hc)), if_pos h]
  · intro h h'
    rw [if_neg (by intro hc; exact absurd h' (not_lt.mpr (by linarith))),
      if_neg (by intro hc; exact absurd h' (not_lt.mpr (by linarith))),
      if_neg (by exact fun hc => absurd h' (not_lt.mpr hc)), if_pos h]
  · intro h
    rw [if_neg (by intro hc; exact absurd h (not_lt.mpr (by linarith))),
      if_neg (by intro hc; exact absurd h (not_lt.mpr (by linarith))),
      if_neg (by intro hc; exact absurd h (not_lt.mpr (by linarith))),
      if_neg (by intro hc; exact absurd h (not_lt.mpr (by linarith)))]

/-- Witness for C7 at the in-band score 77. -/
theorem c7_feedback_bands_witness :
    ((75 : ℚ) ≤ 77 ∧ (77 : ℚ) < 90) ∧
    getFeedbackMessage 77 = ("Great! 🌟", "text-blue-500") :=
  ⟨⟨by decide, by decide⟩, (c7_feedback_bands 77).2.1 (by decide) (by decide)⟩

/-- C8: `shouldCelebrate` is true exactly on scores at least 85, with the
boundary values 84 and 85 behaving as stated. -/
theorem c8_celebrate_iff :
    ∀ a : ℚ, (shouldCelebrate a = true ↔ 85 ≤ a) ∧
      shouldCelebrate 84 = false ∧ shouldCelebrate 85 = true := by
  intro a
  refine ⟨?_, by decide, by decide⟩
  simp [shouldCelebrate, GE.ge]

/-- C9: the score is symmetric in its two pose arguments. -/
theorem c9_score_symmetric (pose1 pose2 : Option DetectedPose) :
    calculatePoseSimilarity pose1 pose2 = calculatePoseSimilarity pose2 pose1 :=
  score_comm pose1 pose2

lemma eligibleJoint_congr {landmarks1 landmarks1' landmarks2 landmarks2' : List PoseLandmark}
    {idx : ℕ} (h1 : landmarks1.get? idx = landmarks1'.get? idx)
    (h2 : landmarks2.get? idx = landmarks2'.get? idx) :
    eligibleJoint landmarks1 landmarks2 idx = eligibleJoint landmarks1' landmarks2' idx := by
  unfold eligibleJoint
  rw [h1, h2]

lemma simAt_congr {landmarks1 landmarks1' landmarks2 landmarks2' : List PoseLandmark}
    {idx : ℕ} (h1 : landmarks1.get? idx = landmarks1'.get? idx)
    (h2 : landmarks2.get? idx = landmarks2'.get? idx) :
    simAt landmarks1 landmarks2 idx = simAt landmarks1' landmarks2' idx := by
  unfold simAt
  rw [h1, h2]

/-- C10: the score depends only on the landmarks at the 12 key indices —
poses that agree there (same presence, same values) score identically; the
world-landmark arrays are irrelevant as well. -/
theorem c10_score_depends_only_on_key_indices
    (landmarks1 landmarks1' landmarks2 landmarks2' w1 w1' w2 w2' : List PoseLandmark)
    (h1 : ∀ idx ∈ KEY_LANDMARKS, landmarks1.get? idx = landmarks1'.get? idx)
    (h2 : ∀ idx ∈ KEY_LANDMARKS, landmarks2.get? idx = landmarks2'.get? idx) :
    calculatePoseSimilarity (some ⟨some landmarks1, w1⟩) (some ⟨some landmarks2, w2⟩) =
      calculatePoseSimilarity (some ⟨some landmarks1', w1'⟩) (some ⟨some landmarks2', w2'⟩) := by
  rw [calculatePoseSimilarity_eq, calculatePoseSimilarity_eq]
  have hfil : KEY_LANDMARKS.filter (eligibleJoint landmarks1 landmarks2) =
      KEY_LANDMARKS.filter (eligibleJoint landmarks1' landmarks2') :=
    List.filter_congr (fun idx hidx => eligibleJoint_congr (h1 idx hidx) (h2 idx hidx))
  have hmap : (KEY_LANDMARKS.filter (eligibleJoint landmarks1' landmarks2')).map
        (simAt landmarks1 landmarks2) =
      (KEY_LANDMARKS.filter (eligibleJoint landmarks1' landmarks2')).map
        (simAt landmarks1' landmarks2') := by
    refine List.map_congr_left ?_
    intro idx hidx
    have hmem := List.mem_of_mem_filter hidx
    exact simAt_congr (h1 idx hmem) (h2 idx hmem)
  rw [hfil, hmap]

/-- Witness for C10: changing the head landmark (index 0) does not change
the score. -/
theorem c10_score_depends_only_on_key_indices_witness :
    (∀ idx ∈ KEY_LANDMARKS,
      ([(⟨0, 0, 0, none⟩ : PoseLandmark)].get? idx) =
      ([(⟨1, 1, 1, some 1⟩ : PoseLandmark)].get? idx)) ∧
    calculatePoseSimilarity (some ⟨some [⟨0, 0, 0, none⟩], []⟩) (some ⟨some [], []⟩) =
      calculatePoseSimilarity (some ⟨some [⟨1, 1, 1, some 1⟩], []⟩) (some ⟨some [], []⟩) :=
  ⟨by decide, c10_score_depends_only_on_key_indices _ _ _ _ _ _ _ _ (by decide) (by decide)⟩

/-- A pose whose landmarks all carry an explicit visibility of exactly 0. -/
def c2Lms : List PoseLandmark :=
  List.replicate 12 ⟨0, 0, 0, some 0⟩

/-- Counterexample to C2: a joint whose visibility is exactly 0 on both sides
is NOT excluded — `0 || 1` is `1` in JavaScript, so the joint is compared.
With every landmark at visibility 0, the claim demands zero eligible joints
and hence score 0, but the code scores these identical poses 100. -/
theorem c2_counterexample :
    eligibleJoint c2Lms c2Lms 11 = true ∧
    calculatePoseSimilarity (some ⟨some c2Lms, []⟩) (some ⟨some c2Lms, []⟩) = 100 := by
  refine ⟨by decide, ?_⟩
  rw [calculatePoseSimilarity_eq]
  have hfil : KEY_LANDMARKS.filter (eligibleJoint c2Lms c2Lms) = [11] := by decide
  rw [hfil]
  have hget : c2Lms.get? 11 = some ⟨0, 0, 0, some 0⟩ := by decide
  have hsim : simAt c2Lms c2Lms 11 = 1 := by
    unfold simAt
    rw [hget]
    unfold calculateJointSimilarity
    dsimp only
    have hq : ((0 - 0) * (0 - 0) + (0 - 0) * (0 - 0) +
        (jsOrQ 0 0 - jsOrQ 0 0) * (jsOrQ 0 0 - jsOrQ 0 0) * 0.3 : ℚ) = 0 := by
      norm_num [jsOrQ]
    rw [hq]
    norm_num [Real.sqrt_zero]
  simp only [List.map_cons, List.map_nil, List.sum_cons, List.sum_nil, hsim,
    List.length_cons, List.length_nil]
  rw [if_neg (by norm_num)]
  have harg : ((1 : ℝ) + 0) / ((0 + 1 : ℕ) : ℝ) * 100 = 100 := by norm_num
  rw [harg]
  unfold jsRound
  refine Int.floor_eq_iff.mpr ⟨by norm_num, by norm_num⟩

/-- C2 amended: a key joint contributes to the average (in numerator and
denominator alike) iff its index is present in both landmark arrays and on
each side the effective visibility — the stated value when present and
nonzero, otherwise 1, since both a missing visibility and a visibility of
exactly 0 are falsy and default to 1 — is at least 0.5.  In particular a
visibility of exactly 0 is treated as fully visible and included. -/
theorem c2_amended_eligibility :
    (∀ landmarks1 landmarks2 w1 w2 : List PoseLandmark,
      calculatePoseSimilarity (some ⟨some landmarks1, w1⟩) (some ⟨some landmarks2, w2⟩) =
        (if (KEY_LANDMARKS.filter (eligibleJoint landmarks1 landmarks2)).length = 0 then 0
         else jsRound
          (((KEY_LANDMARKS.filter (eligibleJoint landmarks1 landmarks2)).map
              (simAt landmarks1 landmarks2)).sum /
            ((KEY_LANDMARKS.filter (eligibleJoint landmarks1 landmarks2)).length : ℝ) * 100))) ∧
    (∀ (landmarks1 landmarks2 : List PoseLandmark) (idx : ℕ) (l1 l2 : PoseLandmark),
      landmarks1.get? idx = some l1 → landmarks2.get? idx = some l2 →
      (eligibleJoint landmarks1 landmarks2 idx = true ↔
        mkRat 1 2 ≤ jsOrOpt l1.visibility 1 ∧ mkRat 1 2 ≤ jsOrOpt l2.visibility 1)) ∧
    (∀ (landmarks1 landmarks2 : List PoseLandmark) (idx : ℕ),
      landmarks1.get? idx = none ∨ landmarks2.get? idx = none →
      eligibleJoint landmarks1 landmarks2 idx = false) ∧
    jsOrOpt (some 0) 1 = 1 ∧ jsOrOpt none 1 = 1 := by
  refine ⟨calculatePoseSimilarity_eq, ?_, ?_, by decide, rfl⟩
  · intro landmarks1 landmarks2 idx l1 l2 h1 h2
    unfold eligibleJoint
    simp only [h1, h2]
    by_cases hp : jsOrOpt l1.visibility 1 < mkRat 1 2 ∨ jsOrOpt l2.visibility 1 < mkRat 1 2
    · rw [if_pos hp]
      constructor
      · intro h
        exact absurd h (by simp)
      · rintro ⟨ha, hb⟩
        rcases hp with h | h
        · exact absurd ha (not_le.mpr h)
        · exact absurd hb (not_le.mpr h)
    · rw [if_neg hp]
      push_neg at hp
      exact ⟨fun _ => hp, fun _ => rfl⟩
  · intro landmarks1 landmarks2 idx h
    unfold eligibleJoint
    rcases h with h | h
    · rw [h]
    · rw [h]
      rcases landmarks1.get? idx with _ | l1 <;> rfl

/-- Witness for C2's amended statement at a joint of visibility 0. -/
theorem c2_amended_eligibility_witness :
    ([(⟨0, 0, 0, some 0⟩ : PoseLandmark)].get? 0 = some ⟨0, 0, 0, some 0⟩) ∧
    (eligibleJoint [⟨0, 0, 0, some 0⟩] [⟨0, 0, 0, some 0⟩] 0 = true ↔
      mkRat 1 2 ≤ jsOrOpt (PoseLandmark.mk 0 0 0 (some 0)).visibility 1 ∧
      mkRat 1 2 ≤ jsOrOpt (PoseLandmark.mk 0 0 0 (some 0)).visibility 1) :=
  ⟨by decide, c2_amended_eligibility.2.1 _ _ 0 _ _ (by decide) (by decide)⟩

/-- Palette record of the renderer's `avatarConfig` entries. -/
structure AvatarColors where
  primary : String
  secondary : String
  accent : String
  skin : String
  deriving DecidableEq, Repr

/-- A canvas paint: a plain CSS color string or a gradient with its color
stops, as produced by `createLinearGradient`/`createRadialGradient` plus
`addColorStop`. -/
inductive Paint where
  | color (c : String)
  | linearGradient (x0 y0 x1 y1 : ℚ) (stops : List (ℚ × String))
  | radialGradient (x0 y0 r0 x1 y1 r1 : ℚ) (stops : List (ℚ × String))
  deriving DecidableEq, Repr

/-- One primitive canvas-context operation.  Arc and ellipse angles (and the
ellipse rot argument) are stored as the coefficient of π appearing in the
source, e.g. `arc(x, y, r, 0, 2 * Math.PI)` is `arc x y r 0 2`. -/
inductive DrawOp where
  | clearRect (x y w h : ℚ)
  | beginPath
  | moveTo (x y : ℚ)
  | lineTo (x y : ℚ)
  | closePath
  | arc (x y radius a0 a1 : ℚ)
  | ellipse (x y rx ry rot a0 a1 : ℚ)
  | setStrokeStyle (p : Paint)
  | setFillStyle (p : Paint)
  | setLineWidth (w : ℚ)
  | setLineCap (s : String)
  | setLineJoin (s : String)
  | setShadowColor (s : String)
  | setShadowBlur (b : ℚ)
  | setGlobalAlpha (a : ℚ)
  | stroke
  | fill
  deriving DecidableEq, Repr

/-- JavaScript `landmarks[i]` on an array that may be short (out of bounds
gives `undefined`) or hold `null` entries: both read as an absent landmark. -/
def lmAt (landmarks : List (Option PoseLandmark)) (i : ℕ) : Option PoseLandmark :=
  (landmarks.get? i).join

/-- A hand landmark set as the renderer receives it
(`pose.leftHand`/`pose.rightHand` of `AvatarRenderer.tsx`). -/
structure RenderHand where
  landmarks : Option (List (Option PoseLandmark))
  deriving DecidableEq, Repr

/-- The pose as the renderers consume it at runtime: the body landmark array
(possibly short or with null entries) and the optional hands. -/
structure RenderPose where
  landmarks : Option (List (Option PoseLandmark))
  leftHand : Option RenderHand
  rightHand : Option RenderHand
  deriving DecidableEq, Repr

namespace AvatarRenderer

/-- The `avatarConfig` object literal of `AvatarRenderer.tsx`, as a lookup. -/
def avatarConfig (avatarType : String) : Option AvatarColors :=
  if avatarType = "monkey" then
    some ⟨"#8B4513", "#DEB887", "#FF69B4", "#F4D0A8"⟩
  else if avatarType = "human" then
    some ⟨"#FFD1A4", "#FF9A76", "#4A90E2", "#FFE4C4"⟩
  else if avatarType = "cat" then
    some ⟨"#FFA500", "#FFD700", "#228B22", "#FFE4B5"⟩
  else if avatarType = "dog" then
    some ⟨"#D2691E", "#F4A460", "#FF6347", "#FFDAB9"⟩
  else if avatarType = "bird" then
    some ⟨"#00CED1", "#FFD700", "#FF1493", "#87CEEB"⟩
  else none

/-- `const colors = avatarConfig[avatarType as keyof ...] || avatarConfig.monkey`. -/
def colorsFor (avatarType : String) : AvatarColors :=
  (avatarConfig avatarType).getD ⟨"#8B4513", "#DEB887", "#FF69B4", "#F4D0A8"⟩

/-- The complete operation block emitted by `drawLimb` once both endpoint
landmarks are known to be present. -/
def limbStrokeOps (sp ep : PoseLandmark) (thickness : ℚ) (color : String)
    (colors : AvatarColors) : List DrawOp :=
  let startX := sp.x * 640
  let startY := sp.y * 480
  let endX := ep.x * 640
  let endY := ep.y * 480
  let gradient := Paint.linearGradient startX startY endX endY
    [(0, color), (1, colors.secondary)]
  [.beginPath, .moveTo startX startY, .lineTo endX endY,
   .setStrokeStyle gradient, .setLineWidth thickness, .setLineCap "round",
   .setLineJoin "round", .setShadowColor "rgba(0, 0, 0, 0.2)",
   .setShadowBlur 5, .stroke, .setShadowBlur 0]

/-- `drawLimb` of `AvatarRenderer.tsx`: guarded by
`if (landmarks[start] && landmarks[end])`. -/
def drawLimb (landmarks : List (Option PoseLandmark)) (colors : AvatarColors)
    (s e : ℕ) (thickness : ℚ) (color : String) : List DrawOp :=
  match lmAt landmarks s, lmAt landmarks e with
  | some sp, some ep => limbStrokeOps sp ep thickness color colors
  | _, _ => []

/-- The complete operation block emitted by `drawJoint` (glow halo plus solid
marker) once the landmark is known to be present. -/
def jointMarkOps (p : PoseLandmark) (radius : ℚ) (color : String) : List DrawOp :=
  let x := p.x * 640
  let y := p.y * 480
  [.beginPath, .arc x y (radius + 3) 0 2,
   .setFillStyle (.color (color ++ "40")), .fill,
   .beginPath, .arc x y radius 0 2, .setFillStyle (.color color),
   .setShadowColor color, .setShadowBlur 10, .fill, .setShadowBlur 0]

/-- `drawJoint` of `AvatarRenderer.tsx`: guarded by `if (landmarks[index])`. -/
def drawJoint (landmarks : List (Option PoseLandmark)) (index : ℕ)
    (radius : ℚ) (color : String) : List DrawOp :=
  match lmAt landmarks index with
  | some p => jointMarkOps p radius color
  | none => []

/-- `drawHand` of `AvatarRenderer.tsx`.  The palm path starts with an
unguarded `hand[0].x` access, which throws when the wrist point is absent:
that crash is modelled as `none`. -/
def drawHand (handLandmarks : Option RenderHand) (handColor : String)
    (colors : AvatarColors) : Option (List DrawOp) :=
  match handLandmarks with
  | none => some []
  | some hobj =>
    match hobj.landmarks with
    | none => some []
    | some hand =>
      match lmAt hand 0 with
      | none => none
      | some h0 =>
        let palm : List DrawOp :=
          [.beginPath, .moveTo (h0.x * 640) (h0.y * 480)] ++
          (([5, 9, 13, 17] : List ℕ).map (fun i =>
            match lmAt hand i with
            | some p => [DrawOp.lineTo (p.x * 640) (p.y * 480)]
            | none => [])).join ++
          [.closePath, .setFillStyle (.color (handColor ++ "CC")), .fill]
        let fingers : List (List ℕ) :=
          [[0, 1, 2, 3, 4], [0, 5, 6, 7, 8], [0, 9, 10, 11, 12],
           [0, 13, 14, 15, 16], [0, 17, 18, 19, 20]]
        let fingerOps : List DrawOp :=
          (fingers.enum.map (fun fi =>
            let fingerIndex := fi.1
            let finger := fi.2
            ((finger.zip finger.tail).map (fun seg =>
              match lmAt hand seg.1, lmAt hand seg.2 with
              | some p, some q =>
                [DrawOp.beginPath, .moveTo (p.x * 640) (p.y * 480),
                 .lineTo (q.x * 640) (q.y * 480),
                 .setStrokeStyle (.color handColor),
                 .setLineWidth (if fingerIndex = 0 then 8 else 6),
                 .setLineCap "round", .stroke]
              | _, _ => [])).join ++
            (match lmAt hand (finger.getD (finger.length - 1) 0) with
             | some p =>
               [DrawOp.beginPath,
                .arc (p.x * 640) (p.y * 480) (if fingerIndex = 0 then 6 else 5) 0 2,
                .setFillStyle (.color colors.accent), .fill]
             | none => []))).join
        let knuckles : List DrawOp :=
          (([1, 5, 9, 13, 17] : List ℕ).map (fun i =>
            match lmAt hand i with
            | some p =>
              [DrawOp.beginPath, .arc (p.x * 640) (p.y * 480) 4 0 2,
               .setFillStyle (.color colors.accent), .fill]
            | none => [])).join
        some (palm ++ fingerOps ++ knuckles)

/-- The monkey-face block of the head renderer. -/
def monkeyHead (headX headY : ℚ) (colors : AvatarColors) : List DrawOp :=
  let headSize : ℚ := 45
  let gradient := Paint.radialGradient headX headY 0 headX headY headSize
    [(0, colors.primary), (1, colors.primary ++ "CC")]
  [.beginPath, .arc headX headY headSize 0 2, .setFillStyle gradient, .fill,
   .beginPath, .arc headX (headY + 8) (headSize * 0.7) 0 2,
   .setFillStyle (.color colors.skin), .fill,
   .setShadowColor "rgba(0, 0, 0, 0.3)", .setShadowBlur 5] ++
  (([-1, 1] : List ℚ).map (fun side =>
    [DrawOp.beginPath, .arc (headX + side * headSize) headY (headSize * 0.4) 0 2,
     .setFillStyle (.color colors.primary), .fill])).join ++
  [.setShadowBlur 0] ++
  (([-15, 15] : List ℚ).map (fun offsetX =>
    [DrawOp.beginPath, .arc (headX + offsetX) (headY - 5) 8 0 2,
     .setFillStyle (.color "#FFF"), .fill,
     .beginPath, .arc (headX + offsetX) (headY - 5) 5 0 2,
     .setFillStyle (.color "#000"), .fill,
     .beginPath, .arc (headX + offsetX - 2) (headY - 7) 2 0 2,
     .setFillStyle (.color "#FFF"), .fill])).join ++
  [.beginPath, .arc headX (headY + 8) 5 0 2, .setFillStyle (.color "#000"), .fill,
   .beginPath, .arc headX (headY + 10) 18 0.2 0.8,
   .setStrokeStyle (.color "#000"), .setLineWidth 3, .stroke]

/-- The cat-face block of the head renderer. -/
def catHead (headX headY : ℚ) (colors : AvatarColors) : List DrawOp :=
  let headSize : ℚ := 45
  let gradient := Paint.radialGradient headX headY 0 headX headY headSize
    [(0, colors.primary), (1, colors.primary ++ "DD")]
  [.beginPath, .arc headX headY headSize 0 2, .setFillStyle gradient, .fill,
   .setShadowColor "rgba(0, 0, 0, 0.3)", .setShadowBlur 5] ++
  (([-1, 1] : List ℚ).map (fun side =>
    [DrawOp.beginPath,
     .moveTo (headX + side * headSize * 0.7) (headY - headSize * 0.5),
     .lineTo (headX + side * headSize * 0.3) (headY - headSize),
     .lineTo (headX + side * headSize * 0.5) (headY - headSize * 0.3),
     .closePath, .setFillStyle (.color colors.primary), .fill,
     .beginPath,
     .moveTo (headX + side * headSize * 0.6) (headY - headSize * 0.45),
     .lineTo (headX + side * headSize * 0.4) (headY - headSize * 0.85),
     .lineTo (headX + side * headSize * 0.5) (headY - headSize * 0.4),
     .closePath, .setFillStyle (.color (colors.accent ++ "80")), .fill])).join ++
  [.setShadowBlur 0] ++
  (([-15, 15] : List ℚ).map (fun offsetX =>
    [DrawOp.beginPath, .ellipse (headX + offsetX) (headY - 5) 10 14 0 0 2,
     .setFillStyle (.color colors.accent), .fill,
     .beginPath, .ellipse (headX + offsetX) (headY - 5) 2 10 0 0 2,
     .setFillStyle (.color "#000"), .fill])).join ++
  [.setStrokeStyle (.color "#000"), .setLineWidth 2] ++
  (([-1, 1] : List ℚ).map (fun side =>
    ((List.range 3).map (fun i =>
      [DrawOp.beginPath,
       .moveTo (headX + side * 15) (headY + ((i : ℚ) * 8 - 5)),
       .lineTo (headX + side * 50) (headY + ((i : ℚ) * 10 - 10)),
       .stroke])).join)).join ++
  [.beginPath, .moveTo headX (headY + 5), .lineTo (headX - 5) (headY + 12),
   .lineTo (headX + 5) (headY + 12), .closePath,
   .setFillStyle (.color colors.accent), .fill]

/-- The dog-face block of the head renderer. -/
def dogHead (headX headY : ℚ) (colors : AvatarColors) : List DrawOp :=
  let headSize : ℚ := 45
  let gradient := Paint.radialGradient headX headY 0 headX headY headSize
    [(0, colors.primary), (1, colors.primary ++ "DD")]
  [.beginPath, .arc headX headY headSize 0 2, .setFillStyle gradient, .fill,
   .setShadowColor "rgba(0, 0, 0, 0.3)", .setShadowBlur 8] ++
  (([-1, 1] : List ℚ).map (fun side =>
    [DrawOp.beginPath,
     .ellipse (headX + side * headSize * 0.8) (headY + headSize * 0.3)
       (headSize * 0.4) (headSize * 0.6) (side / 6) 0 2,
     .setFillStyle (.color colors.secondary), .fill])).join ++
  [.setShadowBlur 0] ++
  (([-15, 15] : List ℚ).map (fun offsetX =>
    [DrawOp.beginPath, .arc (headX + offsetX) (headY - 8) 9 0 2,
     .setFillStyle (.color "#FFF"), .fill,
     .beginPath, .arc (headX + offsetX) (headY - 8) 6 0 2,
     .setFillStyle (.color "#000"), .fill,
     .beginPath, .arc (headX + offsetX - 2) (headY - 10) 2 0 2,
     .setFillStyle (.color "#FFF"), .fill])).join ++
  [.beginPath, .ellipse headX (headY + 15) 20 15 0 0 2,
   .setFillStyle (.color colors.skin), .fill,
   .beginPath, .arc headX (headY + 12) 7 0 2, .setFillStyle (.color "#000"), .fill,
   .beginPath, .ellipse headX (headY + 25) 8 12 0 0 2,
   .setFillStyle (.color "#FF69B4"), .fill]

/-- The bird-head block of the head renderer. -/
def birdHead (headX headY : ℚ) (colors : AvatarColors) : List DrawOp :=
  let headSize : ℚ := 45
  let gradient := Paint.radialGradient headX headY 0 headX headY (headSize * 0.8)
    [(0, colors.primary), (1, colors.primary ++ "DD")]
  [.beginPath, .arc headX headY (headSize * 0.8) 0 2, .setFillStyle gradient, .fill,
   .beginPath, .moveTo headX (headY + 5), .lineTo (headX + 30) (headY - 2),
   .lineTo (headX + 30) (headY + 2), .lineTo headX (headY + 15), .closePath,
   .setFillStyle (.color colors.secondary),
   .setShadowColor "rgba(0, 0, 0, 0.2)", .setShadowBlur 5, .fill, .setShadowBlur 0,
   .beginPath, .arc (headX - 10) (headY - 8) 10 0 2,
   .setFillStyle (.color "#FFF"), .fill,
   .beginPath, .arc (headX - 10) (headY - 8) 6 0 2,
   .setFillStyle (.color "#000"), .fill,
   .beginPath, .arc (headX - 12) (headY - 10) 2 0 2,
   .setFillStyle (.color "#FFF"), .fill] ++
  ((List.range 5).map (fun i =>
    [DrawOp.beginPath,
     .moveTo (headX - 20 + (i : ℚ) * 10) (headY - headSize * 0.8),
     .lineTo (headX - 15 + (i : ℚ) * 10) (headY - headSize * 1.3),
     .lineTo (headX - 10 + (i : ℚ) * 10) (headY - headSize * 0.8),
     .setStrokeStyle (.color colors.accent), .setLineWidth 4,
     .setLineCap "round", .stroke])).join

/-- The human-head block: this is the `else` branch of the style dispatch, so
it also serves every unrecognized style id. -/
def humanHead (headX headY : ℚ) (colors : AvatarColors) : List DrawOp :=
  let headSize : ℚ := 45
  let gradient := Paint.radialGradient headX headY 0 headX headY headSize
    [(0, colors.primary), (1, colors.primary ++ "DD")]
  [.beginPath, .arc headX headY headSize 0 2, .setFillStyle gradient, .fill,
   .beginPath, .arc headX (headY - 10) (headSize * 1.1) 1 2,
   .setFillStyle (.color colors.accent), .fill] ++
  (([-15, 15] : List ℚ).map (fun offsetX =>
    [DrawOp.beginPath, .arc (headX + offsetX) (headY - 5) 7 0 2,
     .setFillStyle (.color "#FFF"), .fill,
     .beginPath, .arc (headX + offsetX) (headY - 5) 5 0 2,
     .setFillStyle (.color colors.accent), .fill,
     .beginPath, .arc (headX + offsetX) (headY - 5) 3 0 2,
     .setFillStyle (.color "#000"), .fill,
     .beginPath, .arc (headX + offsetX - 2) (headY - 7) 2 0 2,
     .setFillStyle (.color "#FFF"), .fill])).join ++
  [.beginPath, .arc headX (headY + 8) 18 0.15 0.85,
   .setStrokeStyle (.color "#000"), .setLineWidth 3, .setLineCap "round", .stroke]

/-- The `if (landmarks[0]) { ... }` head block with its style dispatch. -/
def drawHead (landmarks : List (Option PoseLandmark)) (avatarType : String)
    (colors : AvatarColors) : List DrawOp :=
  match lmAt landmarks 0 with
  | none => []
  | some lm0 =>
    let headX := lm0.x * 640
    let headY := lm0.y * 480
    if avatarType = "monkey" then monkeyHead headX headY colors
    else if avatarType = "cat" then catHead headX headY colors
    else if avatarType = "dog" then dogHead headX headY colors
    else if avatarType = "bird" then birdHead headX headY colors
    else humanHead headX headY colors

/-- The fixed joint-marker index list of `AvatarRenderer.tsx`. -/
def jointIndices : List ℕ := [11, 12, 13, 14, 23, 24, 25, 26, 27, 28]

/-- The twelve torso/arm/leg `drawLimb` calls, in source order. -/
def bodyOps (landmarks : List (Option PoseLandmark)) (colors : AvatarColors) :
    List DrawOp :=
  -- Torso
  drawLimb landmarks colors 11 12 24 colors.primary ++
  drawLimb landmarks colors 11 23 20 colors.primary ++
  drawLimb landmarks colors 12 24 20 colors.primary ++
  drawLimb landmarks colors 23 24 22 colors.primary ++
  -- Arms
  drawLimb landmarks colors 11 13 16 colors.secondary ++
  drawLimb landmarks colors 13 15 14 colors.secondary ++
  drawLimb landmarks colors 12 14 16 colors.secondary ++
  drawLimb landmarks colors 14 16 14 colors.secondary ++
  -- Legs
  drawLimb landmarks colors 23 25 18 colors.secondary ++
  drawLimb landmarks colors 25 27 16 colors.secondary ++
  drawLimb landmarks colors 24 26 18 colors.secondary ++
  drawLimb landmarks colors 26 28 16 colors.secondary

/-- The joint-marker loop over `jointIndices`. -/
def jointOps (landmarks : List (Option PoseLandmark)) (colors : AvatarColors) :
    List DrawOp :=
  (jointIndices.map (fun index => drawJoint landmarks index 10 colors.accent)).join

/-- The two feet markers. -/
def feetOps (landmarks : List (Option PoseLandmark)) (colors : AvatarColors) :
    List DrawOp :=
  drawJoint landmarks 27 12 colors.accent ++ drawJoint landmarks 28 12 colors.accent

/-- `if (pose.leftHand) { drawHand(...) } else if (landmarks[wrist]) {
drawJoint(wrist, 14, colors.accent) }` — the per-side hand rendering with its
wrist-marker fallback. -/
def handOrFallback (hand : Option RenderHand)
    (landmarks : List (Option PoseLandmark)) (wrist : ℕ)
    (colors : AvatarColors) : Option (List DrawOp) :=
  match hand with
  | some h => drawHand (some h) colors.skin colors
  | none => some (drawJoint landmarks wrist 14 colors.accent)

/-- The full `AvatarRenderer` drawing pass: clear, torso/arm/leg limbs, head,
joint markers, hands (detailed hand or wrist fallback), feet.  `none` models
the TypeError thrown by `drawHand` on a hand whose wrist point is absent. -/
def renderAvatar (pose : Option RenderPose) (avatarType : String) :
    Option (List DrawOp) :=
  let base : List DrawOp := [.clearRect 0 0 640 480]
  match pose with
  | none => some base
  | some p =>
    match p.landmarks with
    | none => some base
    | some landmarks =>
      let colors := colorsFor avatarType
      let body := bodyOps landmarks colors
      let head := drawHead landmarks avatarType colors
      let joints := jointOps landmarks colors
      let leftOps := handOrFallback p.leftHand landmarks 15 colors
      let rightOps := handOrFallback p.rightHand landmarks 16 colors
      let feet := feetOps landmarks colors
      match leftOps, rightOps with
      | some lo, some ro => some (base ++ body ++ head ++ joints ++ lo ++ ro ++ feet)
      | _, _ => none

/-- A hand input the renderer can draw without throwing: absent, or with an
absent landmark list, or with its wrist point (index 0) present. -/
def handRenderable (hand : Option RenderHand) : Bool :=
  match hand with
  | none => true
  | some h =>
    match h.landmarks with
    | none => true
    | some hlms => (lmAt hlms 0).isSome

end AvatarRenderer

namespace ReferenceAvatarRenderer

/-- The operation block of the reference renderer's `drawLimb` once both
endpoints are present. -/
def refLimbOps (startPoint endPoint : PoseLandmark) (color : String)
    (width : ℚ) : List DrawOp :=
  [.beginPath, .moveTo (startPoint.x * 640) (startPoint.y * 480),
   .lineTo (endPoint.x * 640) (endPoint.y * 480),
   .setStrokeStyle (.color color), .setLineWidth width,
   .setLineCap "round", .stroke]

/-- `drawLimb` of `ReferenceAvatarRenderer.tsx`: explicit bounds checks first,
then null-entry checks. -/
def drawLimb (landmarks : List (Option PoseLandmark)) (s e : ℕ)
    (color : String) (width : ℚ) : List DrawOp :=
  if s ≥ landmarks.length ∨ e ≥ landmarks.length then []
  else
    match lmAt landmarks s, lmAt landmarks e with
    | some startPoint, some endPoint => refLimbOps startPoint endPoint color width
    | _, _ => []

/-- The operation block of the reference renderer's `drawJoint`. -/
def refJointOps (point : PoseLandmark) (color : String) (radius : ℚ) :
    List DrawOp :=
  [.beginPath, .arc (point.x * 640) (point.y * 480) radius 0 2,
   .setFillStyle (.color color), .fill,
   .setStrokeStyle (.color "#fff"), .setLineWidth 2, .stroke]

/-- `drawJoint` of `ReferenceAvatarRenderer.tsx`. -/
def drawJoint (landmarks : List (Option PoseLandmark)) (index : ℕ)
    (color : String) (radius : ℚ) : List DrawOp :=
  if index ≥ landmarks.length then []
  else
    match lmAt landmarks index with
    | some point => refJointOps point color radius
    | none => []

/-- The full `ReferenceAvatarRenderer` drawing pass.  A null pose returns
before any drawing; an absent or empty landmark array leaves only the clear. -/
def render (pose : Option RenderPose) : List DrawOp :=
  match pose with
  | none => []
  | some p =>
    [DrawOp.clearRect 0 0 640 480] ++
    (match p.landmarks with
     | none => []
     | some landmarks =>
       if landmarks.length = 0 then []
       else
         let primaryColor := "#8b5cf6"
         let secondaryColor := "#6366f1"
         let accentColor := "#ec4899"
         [DrawOp.setGlobalAlpha 0.6] ++
         -- Torso
         drawLimb landmarks 11 12 primaryColor 10 ++
         drawLimb landmarks 11 23 primaryColor 10 ++
         drawLimb landmarks 12 24 primaryColor 10 ++
         drawLimb landmarks 23 24 primaryColor 10 ++
         -- Arms
         drawLimb landmarks 11 13 secondaryColor 8 ++
         drawLimb landmarks 13 15 secondaryColor 8 ++
         drawLimb landmarks 12 14 secondaryColor 8 ++
         drawLimb landmarks 14 16 secondaryColor 8 ++
         -- Legs
         drawLimb landmarks 23 25 accentColor 10 ++
         drawLimb landmarks 25 27 accentColor 10 ++
         drawLimb landmarks 24 26 accentColor 10 ++
         drawLimb landmarks 26 28 accentColor 10 ++
         (([11, 12, 13, 14, 15, 16, 23, 24, 25, 26, 27, 28] : List ℕ).map
           (fun i => drawJoint landmarks i "#fff" 8)).join ++
         [DrawOp.setGlobalAlpha 1.0])

end ReferenceAvatarRenderer

lemma lmAt_none_of_ge {landmarks : List (Option PoseLandmark)} {i : ℕ}
    (h : landmarks.length ≤ i) : lmAt landmarks i = none := by
  unfold lmAt
  rw [List.get?_eq_none.mpr h]
  rfl

lemma limbStrokeOps_ne_nil (sp ep : PoseLandmark) (t : ℚ) (c : String)
    (colors : AvatarColors) : AvatarRenderer.limbStrokeOps sp ep t c colors ≠ [] := by
  simp [AvatarRenderer.limbStrokeOps]

lemma jointMarkOps_ne_nil (p : PoseLandmark) (radius : ℚ) (c : String) :
    AvatarRenderer.jointMarkOps p radius c ≠ [] := by
  simp [AvatarRenderer.jointMarkOps]

lemma refLimbOps_ne_nil (sp ep : PoseLandmark) (c : String) (w : ℚ) :
    ReferenceAvatarRenderer.refLimbOps sp ep c w ≠ [] := by
  simp [ReferenceAvatarRenderer.refLimbOps]

lemma refJointOps_ne_nil (p : PoseLandmark) (c : String) (radius : ℚ) :
    ReferenceAvatarRenderer.refJointOps p c radius ≠ [] := by
  simp [ReferenceAvatarRenderer.refJointOps]

/-- C6: in both renderers a limb is drawn — as its complete stroke block —
exactly when both endpoint landmarks are present, a joint marker exactly when
its landmark is present; absent endpoints (out of bounds or null entries)
silently skip the element, and the full render never fails on any body
landmark array. -/
theorem c6_missing_landmark_policy :
    ∀ (landmarks : List (Option PoseLandmark)) (colors : AvatarColors)
      (s e index : ℕ) (t radius : ℚ) (c : String),
      (AvatarRenderer.drawLimb landmarks colors s e t c ≠ [] ↔
        (lmAt landmarks s).isSome ∧ (lmAt landmarks e).isSome) ∧
      (∀ sp ep, lmAt landmarks s = some sp → lmAt landmarks e = some ep →
        AvatarRenderer.drawLimb landmarks colors s e t c =
          AvatarRenderer.limbStrokeOps sp ep t c colors) ∧
      (AvatarRenderer.drawJoint landmarks index radius c ≠ [] ↔
        (lmAt landmarks index).isSome) ∧
      (∀ p, lmAt landmarks index = some p →
        AvatarRenderer.drawJoint landmarks index radius c =
          AvatarRenderer.jointMarkOps p radius c) ∧
      (ReferenceAvatarRenderer.drawLimb landmarks s e c t ≠ [] ↔
        (lmAt landmarks s).isSome ∧ (lmAt landmarks e).isSome) ∧
      (∀ sp ep, lmAt landmarks s = some sp → lmAt landmarks e = some ep →
        ReferenceAvatarRenderer.drawLimb landmarks s e c t =
          ReferenceAvatarRenderer.refLimbOps sp ep c t) ∧
      (ReferenceAvatarRenderer.drawJoint landmarks index c radius ≠ [] ↔
        (lmAt landmarks index).isSome) ∧
      (∀ p, lmAt landmarks index = some p →
        ReferenceAvatarRenderer.drawJoint landmarks index c radius =
          ReferenceAvatarRenderer.refJointOps p c radius) ∧
      (∀ avatarType : String,
        (AvatarRenderer.renderAvatar (some ⟨some landmarks, none, none⟩) avatarType).isSome) := by
  intro landmarks colors s e index t radius c
  refine ⟨?_, ?_, ?_, ?_, ?_, ?_, ?_, ?_, ?_⟩
  · unfold AvatarRenderer.drawLimb
    rcases hs : lmAt landmarks s with _ | sp <;>
      rcases he : lmAt landmarks e with _ | ep <;>
      simp [hs, he, limbStrokeOps_ne_nil]
  · intro sp ep hs he
    unfold AvatarRenderer.drawLimb
    rw [hs, he]
  · unfold AvatarRenderer.drawJoint
    rcases hi : lmAt landmarks index with _ | p <;>
      simp [hi, jointMarkOps_ne_nil]
  · intro p hi
    unfold AvatarRenderer.drawJoint
    rw [hi]
  · unfold ReferenceAvatarRenderer.drawLimb
    by_cases hb : s ≥ landmarks.length ∨ e ≥ landmarks.length
    · rw [if_pos hb]
      rcases hb with hb | hb
      · simp [lmAt_none_of_ge hb]
      · simp [lmAt_none_of_ge hb]
    · rw [if_neg hb]
      rcases hs : lmAt landmarks s with _ | sp <;>
        rcases he : lmAt landmarks e with _ | ep <;>
        simp [hs, he, refLimbOps_ne_nil]
  · intro sp ep hs he
    unfold ReferenceAvatarRenderer.drawLimb
    have hslen : ¬ s ≥ landmarks.length := by
      intro hc
      rw [lmAt_none_of_ge hc] at hs
      exact Option.noConfusion hs
    have helen : ¬ e ≥ landmarks.length := by
      intro hc
      rw [lmAt_none_of_ge hc] at he
      exact Option.noConfusion he
    rw [if_neg (by tauto), hs, he]
  · unfold ReferenceAvatarRenderer.drawJoint
    by_cases hb : index ≥ landmarks.length
    · rw [if_pos hb]
      simp [lmAt_none_of_ge hb]
    · rw [if_neg hb]
      rcases hi : lmAt landmarks index with _ | p <;>
        simp [hi, refJointOps_ne_nil]
  · intro p hi
    unfold ReferenceAvatarRenderer.drawJoint
    have hlen : ¬ index ≥ landmarks.length := by
      intro hc
      rw [lmAt_none_of_ge hc] at hi
      exact Option.noConfusion hi
    rw [if_neg hlen, hi]
  · intro avatarType
    rfl

/-- A short landmark array with a null entry, exercising the skip policy. -/
def c6Lms : List (Option PoseLandmark) :=
  [some ⟨1, 2, 3, none⟩, none, some ⟨4, 5, 6, some 7⟩]

/-- Witness for C6: on `c6Lms`, the limb from index 0 to index 2 is drawn as
its complete stroke block. -/
theorem c6_missing_landmark_policy_witness :
    (lmAt c6Lms 0 = some ⟨1, 2, 3, none⟩ ∧ lmAt c6Lms 2 = some ⟨4, 5, 6, some 7⟩) ∧
    AvatarRenderer.drawLimb c6Lms ⟨"a", "b", "c", "d"⟩ 0 2 24 "#fff" =
      AvatarRenderer.limbStrokeOps ⟨1, 2, 3, none⟩ ⟨4, 5, 6, some 7⟩ 24 "#fff"
        ⟨"a", "b", "c", "d"⟩ :=
  ⟨⟨rfl, rfl⟩,
   (c6_missing_landmark_policy c6Lms ⟨"a", "b", "c", "d"⟩ 0 2 0 24 0 "#fff").2.1
     _ _ rfl rfl⟩

namespace AvatarRenderer

lemma handOrFallback_isSome (hand : Option RenderHand)
    (landmarks : List (Option PoseLandmark)) (wrist : ℕ) (colors : AvatarColors)
    (h : handRenderable hand = true) :
    ∃ ops, handOrFallback hand landmarks wrist colors = some ops := by
  rcases hand with _ | hobj
  · exact ⟨_, rfl⟩
  · unfold handRenderable at h
    unfold handOrFallback drawHand
    rcases hh : hobj.landmarks with _ | hlms <;> simp only [hh] at h ⊢
    · exact ⟨[], rfl⟩
    · rcases h0 : lmAt hlms 0 with _ | w
      · rw [h0] at h
        exact absurd h (by simp)
      · exact ⟨_, rfl⟩

lemma renderAvatar_some (landmarks : List (Option PoseLandmark))
    (avatarType : String) (lh rh : Option RenderHand) (lo ro : List DrawOp)
    (hlo : handOrFallback lh landmarks 15 (colorsFor avatarType) = some lo)
    (hro : handOrFallback rh landmarks 16 (colorsFor avatarType) = some ro) :
    renderAvatar (some ⟨some landmarks, lh, rh⟩) avatarType =
      some ([DrawOp.clearRect 0 0 640 480] ++
        bodyOps landmarks (colorsFor avatarType) ++
        drawHead landmarks avatarType (colorsFor avatarType) ++
        jointOps landmarks (colorsFor avatarType) ++ lo ++ ro ++
        feetOps landmarks (colorsFor avatarType)) := by
  unfold renderAvatar
  dsimp only
  rw [hlo, hro]

lemma colorsFor_monkey :
    colorsFor "monkey" = ⟨"#8B4513", "#DEB887", "#FF69B4", "#F4D0A8"⟩ := rfl

lemma colorsFor_unknown {s : String} (h1 : s ≠ "monkey") (h2 : s ≠ "human")
    (h3 : s ≠ "cat") (h4 : s ≠ "dog") (h5 : s ≠ "bird") :
    colorsFor s = colorsFor "monkey" := by
  unfold colorsFor avatarConfig
  rw [if_neg h1, if_neg h2, if_neg h3, if_neg h4, if_neg h5]
  rfl

lemma drawHead_monkey (landmarks : List (Option PoseLandmark))
    (colors : AvatarColors) :
    drawHead landmarks "monkey" colors =
      (match lmAt landmarks 0 with
       | none => []
       | some lm0 => monkeyHead (lm0.x * 640) (lm0.y * 480) colors) := by
  unfold drawHead
  rcases h0 : lmAt landmarks 0 with _ | lm0 <;> simp [h0]

lemma drawHead_unknown (landmarks : List (Option PoseLandmark))
    (colors : AvatarColors) {s : String} (h1 : s ≠ "monkey") (h3 : s ≠ "cat")
    (h4 : s ≠ "dog") (h5 : s ≠ "bird") :
    drawHead landmarks s colors =
      (match lmAt landmarks 0 with
       | none => []
       | some lm0 => humanHead (lm0.x * 640) (lm0.y * 480) colors) := by
  unfold drawHead
  rcases h0 : lmAt landmarks 0 with _ | lm0 <;> simp only [h0]
  rw [if_neg h1, if_neg h3, if_neg h4, if_neg h5]

lemma humanHead_ne_monkeyHead (hx hy : ℚ) (colors : AvatarColors) :
    humanHead hx hy colors ≠ monkeyHead hx hy colors := by
  intro h
  have hlen := congrArg List.length h
  simp [humanHead, monkeyHead] at hlen

/-- Core of the corrected C3: for an unrecognized style id and drawable
hands, the output uses the monkey palette throughout and coincides with the
monkey render exactly when the head landmark is absent (when present, the
head is drawn by the human-head routine instead of the monkey one). -/
lemma renderAvatar_unknown_iff (landmarks : List (Option PoseLandmark))
    (lh rh : Option RenderHand) (s : String)
    (h1 : s ≠ "monkey") (h2 : s ≠ "human") (h3 : s ≠ "cat") (h4 : s ≠ "dog")
    (h5 : s ≠ "bird") (hlh : handRenderable lh = true)
    (hrh : handRenderable rh = true) :
    colorsFor s = colorsFor "monkey" ∧
    (renderAvatar (some ⟨some landmarks, lh, rh⟩) s =
        renderAvatar (some ⟨some landmarks, lh, rh⟩) "monkey" ↔
      lmAt landmarks 0 = none) := by
  have hcol : colorsFor s = colorsFor "monkey" := colorsFor_unknown h1 h2 h3 h4 h5
  refine ⟨hcol, ?_⟩
  obtain ⟨lo, hlo⟩ := handOrFallback_isSome lh landmarks 15 (colorsFor "monkey") hlh
  obtain ⟨ro, hro⟩ := handOrFallback_isSome rh landmarks 16 (colorsFor "monkey") hrh
  have hlo' : handOrFallback lh landmarks 15 (colorsFor s) = some lo := by
    rw [hcol]; exact hlo
  have hro' : handOrFallback rh landmarks 16 (colorsFor s) = some ro := by
    rw [hcol]; exact hro
  rw [renderAvatar_some landmarks s lh rh lo ro hlo' hro',
    renderAvatar_some landmarks "monkey" lh rh lo ro hlo hro, hcol]
  rw [drawHead_unknown landmarks (colorsFor "monkey") h1 h3 h4 h5,
    drawHead_monkey landmarks (colorsFor "monkey")]
  constructor
  · intro heq
    rw [Option.some_inj] at heq
    have hheads := List.append_cancel_left (List.append_cancel_right
      (List.append_cancel_right (List.append_cancel_right
        (List.append_cancel_right heq))))
    rcases h0 : lmAt landmarks 0 with _ | lm0
    · rfl
    · rw [h0] at hheads
      exact absurd hheads (humanHead_ne_monkeyHead _ _ _)
  · intro h0
    rw [h0]

end AvatarRenderer

/-- Counterexample to C3: with the head landmark present, an unrecognized
style id ("alien") renders a different operation sequence than the default
"monkey" style — the body uses the monkey palette, but the head is drawn by
the human-head routine. -/
theorem c3_unknown_style_counterexample :
    AvatarRenderer.renderAvatar
        (some ⟨some [some ⟨0, 0, 0, none⟩], none, none⟩) "alien" ≠
      AvatarRenderer.renderAvatar
        (some ⟨some [some ⟨0, 0, 0, none⟩], none, none⟩) "monkey" := by
  intro h
  have hiff := (AvatarRenderer.renderAvatar_unknown_iff [some ⟨0, 0, 0, none⟩]
    none none "alien" (by decide) (by decide) (by decide) (by decide) (by decide)
    rfl rfl).2
  have h0 := hiff.mp h
  exact Option.noConfusion h0

/-- C3 amended: for every pose and unrecognized style id, the renderer uses
the monkey (default) palette, and the output equals the "monkey" render
exactly when the head landmark (index 0) is absent; when it is present the
head is drawn by the human-head routine in the monkey palette, so the outputs
differ.  (Hands are required to be drawable so that neither render throws.) -/
theorem c3_unknown_style_amended :
    ∀ (landmarks : List (Option PoseLandmark))
      (lh rh : Option RenderHand) (s : String),
      s ∉ (["monkey", "human", "cat", "dog", "bird"] : List String) →
      AvatarRenderer.handRenderable lh = true →
      AvatarRenderer.handRenderable rh = true →
      AvatarRenderer.colorsFor s = AvatarRenderer.colorsFor "monkey" ∧
      (AvatarRenderer.renderAvatar (some ⟨some landmarks, lh, rh⟩) s =
          AvatarRenderer.renderAvatar (some ⟨some landmarks, lh, rh⟩) "monkey" ↔
        lmAt landmarks 0 = none) := by
  intro landmarks lh rh s hs hlh hrh
  have h1 : s ≠ "monkey" := fun h => hs (by rw [h]; decide)
  have h2 : s ≠ "human" := fun h => hs (by rw [h]; decide)
  have h3 : s ≠ "cat" := fun h => hs (by rw [h]; decide)
  have h4 : s ≠ "dog" := fun h => hs (by rw [h]; decide)
  have h5 : s ≠ "bird" := fun h => hs (by rw [h]; decide)
  exact AvatarRenderer.renderAvatar_unknown_iff landmarks lh rh s h1 h2 h3 h4 h5 hlh hrh

/-- Witness for C3's amended statement: with no head landmark, "alien"
renders identically to "monkey". -/
theorem c3_unknown_style_amended_witness :
    ("alien" ∉ (["monkey", "human", "cat", "dog", "bird"] : List String)) ∧
    (AvatarRenderer.renderAvatar (some ⟨some [], none, none⟩) "alien" =
        AvatarRenderer.renderAvatar (some ⟨some [], none, none⟩) "monkey" ↔
      lmAt [] 0 = none) :=
  ⟨by decide,
   (c3_unknown_style_amended [] none none "alien" (by decide) rfl rfl).2⟩
